import Mathlib

/-
  Shallow embedding of the two controller classes of the ARC_NFT_BE repository:
    src/app/modules/controller/NFTCollectionController.ts
    src/app/modules/controller/NFTOwnerController.ts

  Conventions of the embedding:
  - Machine numbers (prices, timestamps, percentages) are JS numbers in the
    source; they are modelled as rationals, and the divisions performed by the
    code are exact rational divisions.
  - MongoDB ObjectId values are modelled as strings; a freshly generated id is
    derived from a counter carried by the store state.
  - The document store handle (this.mongodb) is modelled as a Bool flag
    (conn = true means the handle is set).  Each operation takes the current
    store state (DB) explicitly.  Operations that can mutate the store return
    the new state.
  - A thrown JS exception is modelled with the Except monad; the try/catch
    blocks of the source are modelled by tryCatch / tryCatchSt below.  An
    operation whose TypeScript method has no try/catch keeps the Except in its
    result type: an Except.error escaping means the method throws past its
    boundary.
  - The optional filters parameter of the source methods is omitted: every
    operation is modelled at the filters-absent call, where the source builds
    the aggregation as an empty pipeline (returning every document) or as the
    single match stage the method itself pushes.
  - TypeScript object fields that a given code path leaves undefined are
    modelled as the empty string / empty list; a findOne result that may be
    null is modelled as an Option.
-/

namespace ArcNFT

/-- Person document of the Person collection (owner/profile record). -/
structure Person where
  _id : String
  wallet : String
  photoUrl : String
  social : String
  bio : String
  username : String
deriving Repr, DecidableEq

/-- NFT document of the NFT collection. -/
structure NFT where
  collection : String
  index : String
  owner : String
  creator : String
  price : ℚ
  artURI : String
  name : String
deriving Repr, DecidableEq

/-- Activity document of the Activity collection.  The source fields from/to
are renamed fromAddr/toAddr because from is a Lean keyword. -/
structure Activity where
  type : String
  fromAddr : String
  toAddr : String
  collection : String
  nftId : String
  price : ℚ
  date : ℚ
deriving Repr, DecidableEq

/-- NFTCollection document.  The url field is present in the interface but is
never written by createCollection; the creation path stores it as "". -/
structure NFTCollection where
  _id : String
  name : String
  contract : String
  creator : String
  creatorEarning : ℚ
  blockchain : String
  isVerified : Bool
  isExplicit : Bool
  logoUrl : String
  featuredUrl : String
  bannerUrl : String
  description : String
  category : String
  links : List String
  url : String
  platform : String
  properties : List (String × String)
deriving Repr, DecidableEq

/-- The document store: the four named collections plus a counter from which
freshly generated ObjectIds are derived. -/
structure DB where
  persons : List Person
  nfts : List NFT
  activities : List Activity
  collections : List NFTCollection
  nextId : Nat
deriving Repr, DecidableEq

/-- ObjectId generated for the n-th insert. -/
def idOf (n : Nat) : String := "oid-" ++ toString n

/-- The JavaScript Number.MAX_VALUE constant, exactly (2 - 2 ^ (-52)) * 2 ^ 1023. -/
def numberMaxValue : ℚ := 2 ^ 1024 - 2 ^ 971

/-- A thrown JS exception: either new Error(msg) or a TypeError raised by
dereferencing undefined/null. -/
inductive JSError where
  | jsError (msg : String)
  | typeError (msg : String)
deriving Repr, DecidableEq

/-- The message property read by the catch blocks. -/
def JSError.message : JSError → String
  | .jsError m => m
  | .typeError m => m

/-- The TypeError thrown when this.mongodb is unset and the method
dereferences it without a guard. -/
def connTypeError : JSError := .typeError "Cannot read properties of undefined"

/-- The TypeError thrown when a null findOne result is dereferenced. -/
def nullDerefError : JSError := .typeError "Cannot read properties of null"

/-- True when the Except value models an exception escaping the method
boundary instead of a returned payload. -/
def isThrown {α : Type} (e : Except JSError α) : Bool :=
  match e with
  | .error _ => true
  | .ok _ => false

/-- Modelled from the spec: src/app/modules/util/respond.ts is not under src/.
The uniform response envelope respond(payload, isError = false, status = 200):
a success/error flag, an HTTP-style status code, and the payload.  A string
payload (success message or error message) is carried as Sum.inl, a structured
payload as Sum.inr. -/
structure IResponse (α : Type) where
  isError : Bool
  status : Nat
  body : Sum String α
deriving Repr, DecidableEq

/-- The respond helper; call sites pass all three arguments explicitly. -/
def respond {α : Type} (body : Sum String α) (isError : Bool) (status : Nat) :
    IResponse α :=
  ⟨isError, status, body⟩

/-- A try/catch boundary of a read-only method: an exception thrown by the
body is converted to a 500 error payload carrying the exception message. -/
def tryCatch {α : Type} (body : Except JSError (IResponse α)) : IResponse α :=
  match body with
  | .ok r => r
  | .error e => respond (.inl e.message) true 500

/-- A try/catch boundary of a state-passing method: on an exception the
response is the 500 payload and the state observed is the entry state (no
modelled path throws after a write). -/
def tryCatchSt {α : Type} (db : DB) (body : Except JSError (IResponse α × DB)) :
    IResponse α × DB :=
  match body with
  | .ok r => r
  | .error e => (respond (.inl e.message) true 500, db)

/-- Modelled from the spec: src/app/modules/util/morailsHelper.ts is not under
src/.  uploadImage(fileBuffer) -> url. -/
def uploadImage (file : String) : String := "https://img.example/" ++ file

/-- Modelled from the spec: src/app/modules/util/aws-s3-helper.ts is not under
src/.  uploadImageBase64(base64Data, key) -> url. -/
def s3UploadImageBase64 (data key : String) : String :=
  "https://s3.example/" ++ key ++ "/" ++ data

/- ------------------------------------------------------------------ -/
/- Query builders (pure identifier-to-predicate mappings).            -/
/- ------------------------------------------------------------------ -/

/-- NFTOwnerController.findUserQuery: wallet equality. -/
def findUserQuery (ownerId : String) (p : Person) : Bool := p.wallet == ownerId

/-- NFTOwnerController.findOwnerNtfs: owner equality. -/
def findOwnerNtfsQ (ownerId : String) (n : NFT) : Bool := n.owner == ownerId

/-- NFTOwnerController.findOwnerHistory: from == ownerId OR to == ownerId. -/
def findOwnerHistoryQ (ownerId : String) (a : Activity) : Bool :=
  a.fromAddr == ownerId || a.toAddr == ownerId

/-- NFTOwnerController.findOwnerCollection: creator equality. -/
def findOwnerCollectionQ (ownerId : String) (c : NFTCollection) : Bool :=
  c.creator == ownerId

/-- NFTOwnerController.findCollectionItem: _id equality (ObjectId as string). -/
def findCollectionItemByIdQ (collectionId : String) (c : NFTCollection) : Bool :=
  c._id == collectionId

/-- NFTOwnerController.findNFTItem: collection and index equality. -/
def findNFTItemQ (collectionId nftId : String) (n : NFT) : Bool :=
  n.collection == collectionId && n.index == nftId

/-- NFTCollectionController.findCollectionItem: contract equality. -/
def findCollectionItemQ (contract : String) (c : NFTCollection) : Bool :=
  c.contract == contract

/-- NFTCollectionController.findCollectionItemByName: name equality. -/
def findCollectionItemByNameQ (name : String) (c : NFTCollection) : Bool :=
  c.name == name

/-- NFTCollectionController.findPerson: wallet equality. -/
def findPersonQ (address : String) (p : Person) : Bool := p.wallet == address

/-- NFTCollectionController.findPersonById: _id equality (ObjectId as string). -/
def findPersonByIdQ (id : String) (p : Person) : Bool := p._id == id

/- ------------------------------------------------------------------ -/
/- get24HValues (NFTCollectionController private helper).             -/
/- ------------------------------------------------------------------ -/

/-- One day in milliseconds.  The source computes the boundaries with
setDate(getDate() - 1) on a copy of the current Date, which subtracts one
calendar day; outside daylight-saving transitions this equals 86,400,000 ms,
which is how the model renders it (now is the getTime() value in ms). -/
def dayMs : ℚ := 86400000

/-- The forEach accumulation of get24HValues over the sold list:
first component todayTrade, second component yesterDayTrade. -/
def tradeSums (soldList : List Activity) (yesterdayBound dayBeforeBound : ℚ) :
    ℚ × ℚ :=
  soldList.foldl
    (fun acc sold =>
      if sold.date > yesterdayBound then (acc.1 + sold.price, acc.2)
      else if sold.date > dayBeforeBound then (acc.1, acc.2 + sold.price)
      else acc)
    (0, 0)

/-- NFTCollectionController.get24HValues: fetches the Activity rows of the
given collection address, splits them at the now - 24h and now - 48h
boundaries (unix seconds, compared against getTime() / 1000), and returns
(_24h percentage, todayTrade). -/
def get24HValues (db : DB) (address : String) (now : ℚ) : ℚ × ℚ :=
  let soldList := db.activities.filter (fun a => a.collection == address)
  let yesterdayBound := (now - dayMs) / 1000
  let dayBeforeBound := (now - 2 * dayMs) / 1000
  let sums := tradeSums soldList yesterdayBound dayBeforeBound
  let todayTrade := sums.1
  let yesterDayTrade := sums.2
  let _24h : ℚ :=
    if todayTrade == 0 then 0
    else if yesterDayTrade == 0 then 100
    else todayTrade / yesterDayTrade * 100
  (_24h, todayTrade)

/- ------------------------------------------------------------------ -/
/- NFTCollectionController operations.                                -/
/- ------------------------------------------------------------------ -/

/-- Accumulator of the per-collection forEach over the NFT list:
volume sum, running floor price, and the distinct owner list. -/
structure EnrichAcc where
  volume : ℚ
  floorPrice : ℚ
  owners : List String
deriving Repr, DecidableEq

/-- The forEach body shared by getCollections / getTopCollections /
getOwnerCollection: volume += price; if (floorPrice > price) floorPrice =
price; push unseen owners.  The initial floorPrice differs per caller
(0 in NFTCollectionController, Number.MAX_VALUE in NFTOwnerController). -/
def enrichStep (acc : EnrichAcc) (nft : NFT) : EnrichAcc :=
  { volume := acc.volume + nft.price
    floorPrice := if acc.floorPrice > nft.price then nft.price else acc.floorPrice
    owners :=
      if acc.owners.contains nft.owner then acc.owners
      else acc.owners ++ [nft.owner] }

/-- The whole forEach as a fold of enrichStep from the initial accumulator. -/
def enrichFold (initFloor : ℚ) (nfts : List NFT) : EnrichAcc :=
  nfts.foldl enrichStep ⟨0, initFloor, []⟩

/-- The lst.filter((item, pos) => lst.indexOf(item) == pos) idiom:
keep the first occurrence of each element, in order. -/
def dedupFirst (l : List String) : List String :=
  l.foldl (fun acc x => if acc.contains x then acc else acc ++ [x]) []

/-- The enriched row returned per collection by getCollections and
getTopCollections (identical object literals in the source). -/
structure CollectionRow where
  _id : String
  logoUrl : String
  featuredUrl : String
  bannerUrl : String
  contract : String
  creator : String
  creatorDetail : Option Person
  url : String
  description : String
  category : String
  links : List String
  name : String
  blockchain : String
  volume : ℚ
  _24h : ℚ
  _24hPercent : ℚ
  floorPrice : ℚ
  owners : Nat
  items : Nat
  isVerified : Bool
  isExplicit : Bool
  properties : List (String × String)
  platform : String
deriving Repr, DecidableEq

/-- The per-collection enrichment body shared verbatim by getCollections and
getTopCollections: NFTs are fetched by contract, floorPrice starts at 0,
the response carries todayTrade in _24h and the percentage in _24hPercent. -/
def enrichCollection (db : DB) (now : ℚ) (c : NFTCollection) : CollectionRow :=
  let nfts := db.nfts.filter (fun n => n.collection == c.contract)
  let acc := enrichFold 0 nfts
  let vals := get24HValues db c.contract now
  let creator := db.persons.find? (findPersonQ c.creator)
  { _id := c._id
    logoUrl := c.logoUrl
    featuredUrl := c.featuredUrl
    bannerUrl := c.bannerUrl
    contract := c.contract
    creator := c.creator
    creatorDetail := creator
    url := c.url
    description := c.description
    category := c.category
    links := c.links
    name := c.name
    blockchain := c.blockchain
    volume := acc.volume
    _24h := vals.2
    _24hPercent := vals.1
    floorPrice := acc.floorPrice
    owners := acc.owners.length
    items := nfts.length
    isVerified := c.isVerified
    isExplicit := c.isExplicit
    properties := c.properties
    platform := c.platform }

/-- NFTCollectionController.getCollections at the filters-absent call: the
empty pipeline returns every NFTCollection document; each is enriched.  The
toArray result is an array, hence truthy, so the 422 branch of the source is
unreachable and is elided here. -/
def getCollectionsOp (conn : Bool) (db : DB) (now : ℚ) :
    IResponse (List CollectionRow) :=
  tryCatch (do
    if conn then
      let result := db.collections
      let collections := result.map (enrichCollection db now)
      pure (respond (.inr collections) false 200)
    else
      throw (JSError.jsError "Could not connect to the database."))

/-- The JS sort comparator (item1, item2) => item2.volume - item1.volume as a
boolean relation: item1 precedes or ties item2 when the comparator is <= 0. -/
def topSortLe (a b : CollectionRow) : Bool := decide (b.volume ≤ a.volume)

/-- NFTCollectionController.getTopCollections: the same enrichment as
getCollections, then an in-memory stable sort by descending volume and
slice(0, 10). -/
def getTopCollectionsOp (conn : Bool) (db : DB) (now : ℚ) :
    IResponse (List CollectionRow) :=
  tryCatch (do
    if conn then
      let result := db.collections
      let collections := result.map (enrichCollection db now)
      pure (respond (.inr ((collections.mergeSort topSortLe).take 10)) false 200)
    else
      throw (JSError.jsError "Could not connect to the database."))

/-- NFTCollectionController.getOwners: resolve the collection by contract,
collect the distinct NFT owner wallets, and look each profile up. -/
def getOwnersOp (conn : Bool) (db : DB) (contract : String) :
    IResponse (List (Option Person)) :=
  tryCatch (do
    if conn then
      match db.collections.find? (findCollectionItemQ contract) with
      | some result =>
          let nfts := db.nfts.filter (fun n => n.collection == result.contract)
          let ownerWallets := dedupFirst (nfts.map (fun n => n.owner))
          let owners := ownerWallets.map (fun w => db.persons.find? (fun p => p.wallet == w))
          pure (respond (.inr owners) false 200)
      | none => pure (respond (.inl "collection not found.") true 422)
    else
      throw (JSError.jsError "Could not connect to the database."))

/-- Payload of getItems: the collection record with its nfts list attached. -/
structure ItemsRow where
  collection : NFTCollection
  nfts : List NFT
deriving Repr, DecidableEq

/-- NFTCollectionController.getItems at the filters-absent call: no match
stage is pushed, so the aggregation returns every NFT document.  When the
contract resolves to no collection, the assignment result.nfts = nfts
dereferences null and the catch turns that into a 500. -/
def getItemsOp (conn : Bool) (db : DB) (contract : String) : IResponse ItemsRow :=
  tryCatch (do
    if conn then
      match db.collections.find? (findCollectionItemQ contract) with
      | some result =>
          let nfts := db.nfts
          pure (respond (.inr ⟨result, nfts⟩) false 200)
      | none => throw nullDerefError
    else
      throw (JSError.jsError "Could not connect to the database."))

/-- An activity enriched with the referenced NFT art/name pair
(activity.nftObject = artUri, name). -/
structure ActivityRow where
  activity : Activity
  nftObject : String × String
deriving Repr, DecidableEq

/-- The Promise.all enrichment over activities: each referenced NFT is fetched
by collection and index; a missing NFT makes nft.artURI throw, rejecting the
whole fan-out. -/
def enrichWithNft (db : DB) (acts : List Activity) :
    Except JSError (List ActivityRow) :=
  acts.mapM (fun a =>
    match db.nfts.find? (fun n => n.collection == a.collection && n.index == a.nftId) with
    | some nft => pure (⟨a, (nft.artURI, nft.name)⟩ : ActivityRow)
    | none => throw nullDerefError)

/-- NFTCollectionController.getActivity at the filters-absent call: when the
collection resolves, no match stage is pushed, so every Activity document is
returned and enriched. -/
def getActivityOp (conn : Bool) (db : DB) (contract : String) :
    IResponse (List ActivityRow) :=
  tryCatch (do
    if conn then
      match db.collections.find? (findCollectionItemQ contract) with
      | some _ =>
          let activities := db.activities
          let detailed ← enrichWithNft db activities
          pure (respond (.inr detailed) false 200)
      | none => pure (respond (.inl "Activities not found.") true 422)
    else
      throw (JSError.jsError "Could not connect to the database."))

/-- NFTCollectionController.getHistory: Activity rows of the contract whose
type is Sold or Transfer, enriched with the referenced NFT art/name. -/
def getHistoryOp (conn : Bool) (db : DB) (contract : String) :
    IResponse (List ActivityRow) :=
  tryCatch (do
    if conn then
      match db.collections.find? (findCollectionItemQ contract) with
      | some result =>
          let history := db.activities.filter (fun a =>
            a.collection == result.contract && (a.type == "Sold" || a.type == "Transfer"))
          let detailed ← enrichWithNft db history
          pure (respond (.inr detailed) false 200)
      | none => pure (respond (.inl "collection not found.") true 422)
    else
      throw (JSError.jsError "Could not connect to the database."))

/-- The hardcoded placeholder contract address per blockchain type used by
createCollection; any other blockchain value leaves the initial empty
string in place. -/
def contractFor (blockchain : String) : String :=
  if blockchain == "ERC721" then "0x8113901EEd7d41Db3c9D327484be1870605e4144"
  else if blockchain == "ERC1155" then "0xaf8fC965cF9572e5178ae95733b1631440e7f5C8"
  else ""

/-- Payload of createCollection: the spread of the inserted record with its
creator string field replaced by the full creator Person document.  The
collection component keeps the stored record (its creator field is the
creator wallet string). -/
structure CreateCollResp where
  collection : NFTCollection
  creator : Person
deriving Repr, DecidableEq

/-- NFTCollectionController.createCollection.  The handle is dereferenced
before the try block, so with the handle unset a TypeError escapes; inside
the try every validation failure is a thrown Error converted by the catch
into a 500 payload.  The empty-string checks also cover the TS falsy-missing
case of the string parameters. -/
def createCollectionOp (conn : Bool) (db : DB)
    (logoFile featuredImgFile bannerImgFile name description category : String)
    (siteUrl discordUrl instagramUrl mediumUrl telegramUrl : String)
    (creatorEarning : ℚ) (blockchain : String) (isExplicit : Bool)
    (creatorId : String) :
    Except JSError (IResponse CreateCollResp × DB) := do
  if conn then
    pure (tryCatchSt db (do
      match db.persons.find? (findPersonByIdQ creatorId) with
      | none => throw (JSError.jsError "creator address is invalid or missing")
      | some creator =>
        if logoFile == "" then
          throw (JSError.jsError "logoUrl is invalid or missing")
        else if name == "" then
          throw (JSError.jsError "name is invalid or missing")
        else if blockchain == "" then
          throw (JSError.jsError "blockchain is invalid or missing")
        else if category == "" then
          throw (JSError.jsError "category is invalid or missing")
        else
          match db.collections.find? (findCollectionItemByNameQ name) with
          | some _ => throw (JSError.jsError "Same collection name detected")
          | none =>
            let contract := contractFor blockchain
            let logoUrl := uploadImage logoFile
            let featureUrl := if featuredImgFile == "" then "" else uploadImage featuredImgFile
            let bannerUrl := if bannerImgFile == "" then "" else uploadImage bannerImgFile
            let nftCollection : NFTCollection :=
              { _id := idOf db.nextId
                name := name
                contract := contract
                creator := creator.wallet
                creatorEarning := creatorEarning
                blockchain := blockchain
                isVerified := false
                isExplicit := isExplicit
                logoUrl := logoUrl
                featuredUrl := featureUrl
                bannerUrl := bannerUrl
                description := description
                category := category
                links := [siteUrl, discordUrl, instagramUrl, mediumUrl, telegramUrl]
                url := ""
                platform := "Unknown"
                properties := [] }
            let db2 : DB :=
              { db with collections := db.collections ++ [nftCollection],
                        nextId := db.nextId + 1 }
            pure (respond (.inr ⟨nftCollection, creator⟩) false 200, db2)))
  else
    throw connTypeError

/-- Payload of getCollectionDetail: the collection record augmented with its
activity and NFT lists, counts, the zeroed floorPrice/totalVolume fields,
the 24h values, and the creator profile. -/
structure DetailRow where
  collection : NFTCollection
  activities : List Activity
  nfts : List NFT
  floorPrice : ℚ
  totalVolume : ℚ
  owners : Nat
  items : Nat
  _24h : ℚ
  _24hPercent : ℚ
  creatorDetail : Option Person
deriving Repr, DecidableEq

/-- NFTCollectionController.getCollectionDetail: no connection guard and no
try/catch, so with the handle unset the first collection() call throws a
TypeError past the method.  floorPrice and totalVolume are assigned the
constant 0, never computed. -/
def getCollectionDetailOp (conn : Bool) (db : DB) (contract : String) (now : ℚ) :
    Except JSError (IResponse DetailRow) := do
  if conn then
    match db.collections.find? (findCollectionItemQ contract) with
    | none => pure (respond (.inl "collection not found") true 501)
    | some collection =>
      let activities := db.activities.filter (fun a => a.collection == contract)
      let nfts := db.nfts.filter (fun n => n.collection == contract)
      let owners := dedupFirst (nfts.map (fun n => n.owner))
      let vals := get24HValues db contract now
      let creator := db.persons.find? (findPersonQ collection.creator)
      pure (respond
        (.inr ⟨collection, activities, nfts, 0, 0, owners.length, nfts.length,
               vals.2, vals.1, creator⟩) false 200)
  else
    throw connTypeError

/- ------------------------------------------------------------------ -/
/- NFTOwnerController operations.                                     -/
/- ------------------------------------------------------------------ -/

/-- Enriched person row returned by findAllOwners. -/
structure OwnerRow where
  _id : String
  photoUrl : String
  wallet : String
  username : String
  bio : String
  social : String
  nfts : Nat
  collections : Nat
deriving Repr, DecidableEq

/-- NFTOwnerController.findAllOwners at the filters-absent call: every Person
document, each enriched with its owned-NFT and created-collection counts. -/
def findAllOwnersOp (conn : Bool) (db : DB) : IResponse (List OwnerRow) :=
  tryCatch (do
    if conn then
      let result := db.persons
      let items := result.map (fun item =>
        let ntfs := (db.nfts.filter (fun n => n.owner == item.wallet)).length
        let colls := (db.collections.filter (fun c => c.creator == item.wallet)).length
        OwnerRow.mk item._id item.photoUrl item.wallet item.username item.bio
          item.social ntfs colls)
      pure (respond (.inr items) false 200)
    else
      throw (JSError.jsError "Could not connect to the database."))

/-- Payload of findPerson (and of updateOwnerPhoto through it). -/
structure PersonResp where
  id : String
  photoUrl : String
  wallet : String
  username : String
  bio : String
  social : String
  nfts : Nat
  collections : Nat
deriving Repr, DecidableEq

/-- NFTOwnerController.findPerson: no connection guard and no try/catch, so
with the handle unset a TypeError escapes.  On a miss a blank Person is
inserted for the wallet and re-read; that branch answers with the literal
zero counts, while the hit branch answers with the live counts. -/
def findPersonOp (conn : Bool) (db : DB) (personId : String) :
    Except JSError (IResponse PersonResp × DB) := do
  if conn then
    let result := db.persons.find? (findUserQuery personId)
    let ntfs := (db.nfts.filter (fun n => n.owner == personId)).length
    let colls := (db.collections.filter (fun c => c.creator == personId)).length
    match result with
    | some r =>
        pure (respond
          (.inr ⟨r._id, r.photoUrl, r.wallet, r.username, r.bio, r.social, ntfs, colls⟩)
          false 200, db)
    | none =>
        let newPerson : Person := ⟨idOf db.nextId, personId, "", "", "", ""⟩
        let db2 : DB :=
          { db with persons := db.persons ++ [newPerson], nextId := db.nextId + 1 }
        match db2.persons.find? (findUserQuery personId) with
        | some r2 =>
            pure (respond
              (.inr ⟨r2._id, r2.photoUrl, r2.wallet, r2.username, r2.bio, r2.social, 0, 0⟩)
              false 200, db2)
        | none => throw nullDerefError
  else
    throw connTypeError

/-- NFTOwnerController.createOwner: no connection guard and no try/catch.
An existing Person for the wallet yields the 501 conflict payload; otherwise
the Person is inserted and the 201 confirmation carries the generated id. -/
def createOwnerOp (conn : Bool) (db : DB)
    (photoUrl wallet bio username social : String) :
    Except JSError (IResponse Unit × DB) := do
  if conn then
    match db.persons.find? (findUserQuery wallet) with
    | some _ => pure (respond (.inl "Current user has been created") true 501, db)
    | none =>
        let person : Person := ⟨idOf db.nextId, wallet, photoUrl, social, bio, username⟩
        let db2 : DB :=
          { db with persons := db.persons ++ [person], nextId := db.nextId + 1 }
        pure (respond
          (.inl ("Successfully created a new owner with id " ++ idOf db.nextId))
          false 201, db2)
  else
    throw connTypeError

/-- updateOne semantics on a Person list: apply the update to the first
document matching the predicate; the second component is the matched count. -/
def updateOneIn : List Person → (Person → Bool) → (Person → Person) →
    List Person × Nat
  | [], _, _ => ([], 0)
  | p :: rest, q, f =>
      if q p then (f p :: rest, 1)
      else
        let r := updateOneIn rest q f
        (p :: r.1, r.2)

/-- The raw update result object returned by the driver. -/
structure UpdateResult where
  matchedCount : Nat
  modifiedCount : Nat
deriving Repr, DecidableEq

/-- NFTOwnerController.updateOwner: merges the caller-supplied partial fields
(abstracted as the field merger upd, modelling the $set of the spread body)
into the Person matched by wallet and returns the raw update result. -/
def updateOwnerOp (conn : Bool) (db : DB) (wallet : String)
    (upd : Person → Person) : IResponse UpdateResult × DB :=
  tryCatchSt db (do
    if conn then
      let r := updateOneIn db.persons (fun p => p.wallet == wallet) upd
      pure (respond (.inr ⟨r.2, r.2⟩) false 200, { db with persons := r.1 })
    else
      throw (JSError.jsError "Could not connect to the database."))

/-- NFTOwnerController.updateOwnerPhoto: 422 when no Person exists for the
wallet; otherwise the image is uploaded, the photoUrl stored, and the
refreshed person returned through findPerson.  The driver result object is
truthy, so the trailing 422 branch of the source is unreachable. -/
def updateOwnerPhotoOp (conn : Bool) (db : DB) (wallet : String) (body : String) :
    IResponse PersonResp × DB :=
  tryCatchSt db (do
    if conn then
      match db.persons.find? (findUserQuery wallet) with
      | none => pure (respond (.inl "Current user not exists") true 422, db)
      | some _ =>
          let img := s3UploadImageBase64 body wallet
          let r := updateOneIn db.persons (fun p => p.wallet == wallet)
            (fun p => { p with photoUrl := img })
          let db2 : DB := { db with persons := r.1 }
          findPersonOp true db2 wallet
    else
      throw (JSError.jsError "Could not connect to the database."))

/-- NFTOwnerController.getOwnerNtfs: the match stage owner == ownerId; the
result array is truthy, so the 422 branch of the source is unreachable. -/
def getOwnerNtfsOp (conn : Bool) (db : DB) (ownerId : String) :
    IResponse (List NFT) :=
  tryCatch (do
    if conn then
      let result := db.nfts.filter (findOwnerNtfsQ ownerId)
      pure (respond (.inr result) false 200)
    else
      throw (JSError.jsError "Could not connect to the database."))

/-- Enriched activity row returned by getOwnerHistory: the activity, the
referenced NFT art/name, and the spread of the referenced collection
document (a null findOne spreads to an empty object, modelled Option). -/
structure HistRow where
  activity : Activity
  nft : String × String
  collection : Option NFTCollection
deriving Repr, DecidableEq

/-- Per-row enrichment of getOwnerHistory: the referenced NFT art/name (a
missing NFT reference throws: nfts.artURI on null) and the collection record
looked up by treating the activity collection value as an ObjectId. -/
def histEnrich (db : DB) (item : Activity) : Except JSError HistRow :=
  match db.nfts.find? (fun n => n.collection == item.collection && n.index == item.nftId) with
  | some nfts =>
      pure ⟨item, (nfts.artURI, nfts.name),
        db.collections.find? (fun c => c._id == item.collection)⟩
  | none => throw nullDerefError

/-- NFTOwnerController.getOwnerHistory: the match stage from == ownerId OR
to == ownerId; each row enriched by histEnrich (the Promise.all rejects as a
whole on the first failure and the catch yields a 500).  The aggregation
result is an array, hence truthy, so the 422 branch of the source is
unreachable. -/
def getOwnerHistoryOp (conn : Bool) (db : DB) (ownerId : String) :
    IResponse (List HistRow) :=
  tryCatch (do
    if conn then
      let result := db.activities.filter (findOwnerHistoryQ ownerId)
      let resActivities ← result.mapM (histEnrich db)
      pure (respond (.inr resActivities) false 200)
    else
      throw (JSError.jsError "Could not connect to the database."))

/-- Enriched row returned by getOwnerCollection: the collection record spread
with the computed fields.  Unlike the collection controller, _24h here holds
the percentage (todayTrade is not returned) and there is no _24hPercent. -/
structure OwnerCollRow where
  collection : NFTCollection
  volume : ℚ
  _24h : ℚ
  floorPrice : ℚ
  owners : Nat
  items : Nat
  creatorDetail : Option Person
deriving Repr, DecidableEq

/-- The per-collection body of getOwnerCollection: NFTs and activities are
fetched by the collection _id value (not by contract), floorPrice starts at
Number.MAX_VALUE, and the inline day-over-day computation duplicates
get24HValues. -/
def enrichOwnerCollection (db : DB) (now : ℚ) (c : NFTCollection) : OwnerCollRow :=
  let nfts := db.nfts.filter (fun n => n.collection == c._id)
  let personInfo := db.persons.find? (fun p => p.wallet == c.creator)
  let acc := enrichFold numberMaxValue nfts
  let soldList := db.activities.filter (fun a => a.collection == c._id)
  let sums := tradeSums soldList ((now - dayMs) / 1000) ((now - 2 * dayMs) / 1000)
  let todayTrade := sums.1
  let yesterDayTrade := sums.2
  let _24h : ℚ :=
    if todayTrade == 0 then 0
    else if yesterDayTrade == 0 then 100
    else todayTrade / yesterDayTrade * 100
  ⟨c, acc.volume, _24h, acc.floorPrice, acc.owners.length, nfts.length, personInfo⟩

/-- NFTOwnerController.getOwnerCollection: the match stage creator == ownerId,
each row enriched by enrichOwnerCollection.  The aggregation result is an
array, hence truthy, so the 422 branch of the source is unreachable. -/
def getOwnerCollectionOp (conn : Bool) (db : DB) (ownerId : String) (now : ℚ) :
    IResponse (List OwnerCollRow) :=
  tryCatch (do
    if conn then
      let result := db.collections.filter (findOwnerCollectionQ ownerId)
      pure (respond (.inr (result.map (enrichOwnerCollection db now))) false 200)
    else
      throw (JSError.jsError "Could not connect to the database."))

/-- The Mongo $regex match built from new RegExp(ownerId, "igm"):
case-insensitive substring containment. -/
def regexMatchesCI (pattern s : String) : Bool :=
  pattern == "" || (s.toLower.splitOn pattern.toLower).length ≥ 2

/-- Activity enriched with the referenced NFT art/name (item.nft field). -/
structure OfferRow where
  activity : Activity
  nft : String × String
deriving Repr, DecidableEq

/-- NFTOwnerController.getOwnerOffers: the match stage type == Offer and
from/to matching the ownerId regex case-insensitively; each row enriched
with the referenced NFT art/name. -/
def getOwnerOffersOp (conn : Bool) (db : DB) (ownerId : String) :
    IResponse (List OfferRow) :=
  tryCatch (do
    if conn then
      let result := db.activities.filter (fun a =>
        (regexMatchesCI ownerId a.fromAddr || regexMatchesCI ownerId a.toAddr) &&
          a.type == "Offer")
      let res ← result.mapM (fun item =>
        match db.nfts.find? (fun n => n.collection == item.collection && n.index == item.nftId) with
        | some nfts => pure (⟨item, (nfts.artURI, nfts.name)⟩ : OfferRow)
        | none => throw nullDerefError)
      pure (respond (.inr res) false 200)
    else
      throw (JSError.jsError "Could not connect to the database."))

/-- NFTOwnerController.insertFavourite: no connection guard and no try/catch.
Validates that the collection (by _id), the NFT (by collection id and index)
and the owner (by wallet) exist, then answers the constant success message;
every mutation of the source is commented out, so the state is returned
unchanged on every path. -/
def insertFavouriteOp (conn : Bool) (db : DB)
    (ownerId collectionId nftId : String) :
    Except JSError (IResponse Unit × DB) := do
  if conn then
    match db.collections.find? (findCollectionItemByIdQ collectionId) with
    | none => pure (respond (.inl "collection not found") true 501, db)
    | some _ =>
      match db.nfts.find? (findNFTItemQ collectionId nftId) with
      | none => pure (respond (.inl "Nft not found") true 501, db)
      | some _ =>
        match db.persons.find? (findUserQuery ownerId) with
        | none => pure (respond (.inl "to onwer not found.") true 422, db)
        | some _ => pure (respond (.inl "This NFT already favourite") false 200, db)
  else
    throw connTypeError

/-- NFTOwnerController.removeFavourite: same validations as insertFavourite,
then the constant removal message; all mutations are commented out in the
source, so the state is returned unchanged on every path. -/
def removeFavouriteOp (conn : Bool) (db : DB)
    (ownerId collectionId nftId : String) :
    Except JSError (IResponse Unit × DB) := do
  if conn then
    match db.collections.find? (findCollectionItemByIdQ collectionId) with
    | none => pure (respond (.inl "collection not found") true 501, db)
    | some _ =>
      match db.nfts.find? (findNFTItemQ collectionId nftId) with
      | none => pure (respond (.inl "Nft not found") true 501, db)
      | some _ =>
        match db.persons.find? (findUserQuery ownerId) with
        | none => pure (respond (.inl "to onwer not found.") true 422, db)
        | some _ => pure (respond (.inl "Favourite removed") false 200, db)
  else
    throw connTypeError

/- ------------------------------------------------------------------ -/
/- Helper lemmas about the folds.                                     -/
/- ------------------------------------------------------------------ -/

/-- The volume component of the forEach fold accumulates the price sum. -/
lemma foldl_enrichStep_volume (nfts : List NFT) :
    ∀ acc : EnrichAcc,
      (nfts.foldl enrichStep acc).volume = acc.volume + (nfts.map NFT.price).sum := by
  induction nfts with
  | nil => intro acc; simp
  | cons n rest ih =>
      intro acc
      simp only [List.foldl_cons, List.map_cons, List.sum_cons, ih, enrichStep]
      ring

/-- The floor component of the forEach fold never rises above its start. -/
lemma foldl_enrichStep_floor_le_init (nfts : List NFT) :
    ∀ acc : EnrichAcc, (nfts.foldl enrichStep acc).floorPrice ≤ acc.floorPrice := by
  induction nfts with
  | nil => intro acc; simp
  | cons n rest ih =>
      intro acc
      refine le_trans (ih (enrichStep acc n)) ?_
      simp only [enrichStep]
      split
      · exact le_of_lt (by assumption)
      · exact le_rfl

/-- The floor component of the forEach fold is a lower bound of every price. -/
lemma foldl_enrichStep_floor_le_mem (nfts : List NFT) :
    ∀ acc : EnrichAcc, ∀ n ∈ nfts, (nfts.foldl enrichStep acc).floorPrice ≤ n.price := by
  induction nfts with
  | nil => intro acc n hn; cases hn
  | cons m rest ih =>
      intro acc n hn
      rcases List.mem_cons.mp hn with h | h
      · subst h
        refine le_trans (foldl_enrichStep_floor_le_init rest (enrichStep acc n)) ?_
        simp only [enrichStep]
        split
        · exact le_rfl
        · exact le_of_not_gt (by assumption)
      · exact ih (enrichStep acc m) n h

/-- The floor component of the forEach fold is its start or one of the prices. -/
lemma foldl_enrichStep_floor_attained (nfts : List NFT) :
    ∀ acc : EnrichAcc,
      (nfts.foldl enrichStep acc).floorPrice = acc.floorPrice ∨
        ∃ n ∈ nfts, (nfts.foldl enrichStep acc).floorPrice = n.price := by
  induction nfts with
  | nil => intro acc; left; rfl
  | cons m rest ih =>
      intro acc
      rcases ih (enrichStep acc m) with h | ⟨n, hn, heq⟩
      · by_cases hc : acc.floorPrice > m.price
        · right
          refine ⟨m, List.mem_cons_self .., ?_⟩
          rw [List.foldl_cons, h]
          simp only [enrichStep, if_pos hc]
        · left
          rw [List.foldl_cons, h]
          simp only [enrichStep, if_neg hc]
      · right
        exact ⟨n, List.mem_cons_of_mem _ hn, heq⟩

/-- Volume of the enrichment fold is the sum of the prices. -/
lemma enrichFold_volume (initFloor : ℚ) (nfts : List NFT) :
    (enrichFold initFloor nfts).volume = (nfts.map NFT.price).sum := by
  simp [enrichFold, foldl_enrichStep_volume]

/-- Floor of the enrichment fold: a lower bound of the start and of every
price, and attained at the start or at one of the prices: it is exactly the
minimum of the start value and the prices. -/
lemma enrichFold_floor (initFloor : ℚ) (nfts : List NFT) :
    (enrichFold initFloor nfts).floorPrice ≤ initFloor ∧
      (∀ n ∈ nfts, (enrichFold initFloor nfts).floorPrice ≤ n.price) ∧
      ((enrichFold initFloor nfts).floorPrice = initFloor ∨
        ∃ n ∈ nfts, (enrichFold initFloor nfts).floorPrice = n.price) := by
  refine ⟨foldl_enrichStep_floor_le_init nfts _, fun n hn => ?_, ?_⟩
  · exact foldl_enrichStep_floor_le_mem nfts _ n hn
  · exact foldl_enrichStep_floor_attained nfts _

/-- The pair computed by the trade fold: componentwise, the sum of the prices
of the rows above the first boundary, and of the rows between the two. -/
lemma tradeSums_spec (soldList : List Activity) (b1 b2 : ℚ) :
    tradeSums soldList b1 b2 =
      (((soldList.filter (fun a => decide (a.date > b1))).map Activity.price).sum,
       ((soldList.filter (fun a => decide (¬ a.date > b1) && decide (a.date > b2))).map
          Activity.price).sum) := by
  have h : ∀ acc : ℚ × ℚ,
      soldList.foldl
        (fun acc sold =>
          if sold.date > b1 then (acc.1 + sold.price, acc.2)
          else if sold.date > b2 then (acc.1, acc.2 + sold.price)
          else acc) acc =
      (acc.1 + ((soldList.filter (fun a => decide (a.date > b1))).map Activity.price).sum,
       acc.2 + ((soldList.filter (fun a => decide (¬ a.date > b1) && decide (a.date > b2))).map
          Activity.price).sum) := by
    induction soldList with
    | nil => intro acc; simp
    | cons s rest ih =>
        intro acc
        by_cases h1 : s.date > b1
        · simp only [List.foldl_cons, if_pos h1, ih, List.filter_cons]
          simp [h1]
          ring
        · by_cases h2 : s.date > b2
          · simp only [List.foldl_cons, if_neg h1, if_pos h2, ih, List.filter_cons]
            simp [h1, h2]
            ring
          · simp only [List.foldl_cons, if_neg h1, if_neg h2, ih, List.filter_cons]
            simp [h1, h2]
  have h0 := h (0, 0)
  simpa [tradeSums] using h0

/- ------------------------------------------------------------------ -/
/- Claim C2.                                                          -/
/- ------------------------------------------------------------------ -/

/-- Activity rows of the C2 example: a trade of price 10 one hour before now
and a trade of price 5 thirty hours before now (dates in unix seconds, now in
milliseconds), both on the collection addr. -/
def exampleActivities (now : ℚ) : List Activity :=
  [⟨"Sold", "0xa", "0xb", "addr", "1", 10, now / 1000 - 3600⟩,
   ⟨"Sold", "0xa", "0xb", "addr", "2", 5, now / 1000 - 108000⟩]

/-- Store holding exactly the C2 example activities. -/
def exampleDb (now : ℚ) : DB := ⟨[], [], exampleActivities now, [], 0⟩

/-- Claim C2: get24HValues partitions the Activity rows of the collection at
the now - 24h and now - 48h boundaries, returns the raw today sum as second
component, and returns as percentage 0 when the today sum is zero, 100 when
the today sum is nonzero and the yesterday sum is zero, and
today / yesterday * 100 otherwise; in particular rows at now - 1h (price 10)
and now - 30h (price 5) yield todayTrade 10, yesterdayTrade 5 and _24h 200. -/
theorem C2_get24HValues :
    (∀ (db : DB) (address : String) (now : ℚ),
      (get24HValues db address now).2 =
        (((db.activities.filter (fun a => a.collection == address)).filter
            (fun a => decide (a.date > (now - dayMs) / 1000))).map Activity.price).sum ∧
      (get24HValues db address now).1 =
        (if (((db.activities.filter (fun a => a.collection == address)).filter
                (fun a => decide (a.date > (now - dayMs) / 1000))).map Activity.price).sum = 0
         then 0
         else if (((db.activities.filter (fun a => a.collection == address)).filter
                (fun a => decide (¬ a.date > (now - dayMs) / 1000) &&
                  decide (a.date > (now - 2 * dayMs) / 1000))).map Activity.price).sum = 0
         then 100
         else (((db.activities.filter (fun a => a.collection == address)).filter
                  (fun a => decide (a.date > (now - dayMs) / 1000))).map Activity.price).sum /
              (((db.activities.filter (fun a => a.collection == address)).filter
                  (fun a => decide (¬ a.date > (now - dayMs) / 1000) &&
                    decide (a.date > (now - 2 * dayMs) / 1000))).map Activity.price).sum * 100)) ∧
    (∀ now : ℚ, get24HValues (exampleDb now) "addr" now = (200, 10)) := by
  constructor
  · intro db address now
    constructor
    · simp [get24HValues, tradeSums_spec]
    · simp [get24HValues, tradeSums_spec, beq_iff_eq]
  · intro now
    have e1 : (now - dayMs) / 1000 = now / 1000 - 86400 := by rw [dayMs]; ring
    have e2 : (now - 2 * dayMs) / 1000 = now / 1000 - 172800 := by rw [dayMs]; ring
    have c1 : now / 1000 - 3600 > (now - dayMs) / 1000 := by rw [e1]; linarith
    have c2 : ¬ now / 1000 - 108000 > (now - dayMs) / 1000 := by rw [e1]; linarith
    have c3 : now / 1000 - 108000 > (now - 2 * dayMs) / 1000 := by rw [e2]; linarith
    have hfil : (exampleDb now).activities.filter (fun a => a.collection == "addr") =
        exampleActivities now := rfl
    have ht : tradeSums (exampleActivities now) ((now - dayMs) / 1000)
        ((now - 2 * dayMs) / 1000) = (10, 5) := by
      simp only [tradeSums, exampleActivities, List.foldl_cons, List.foldl_nil]
      rw [if_pos c1, if_neg c2, if_pos c3]
      norm_num
    simp only [get24HValues, hfil, ht]
    norm_num

/- ------------------------------------------------------------------ -/
/- Claim C1.                                                          -/
/- ------------------------------------------------------------------ -/

/-- The structured rows of a response (empty for a string payload). -/
def rowsOf {α : Type} (r : IResponse (List α)) : List α :=
  match r.body with
  | .inr l => l
  | .inl _ => []

/-- A collection with contract c1 created by wallet 0xcr. -/
def cOne : NFTCollection :=
  ⟨"cid1", "Coll One", "c1", "0xcr", 0, "ERC721", false, false,
   "logo", "feat", "ban", "desc", "cat", [], "", "Unknown", []⟩

/-- A single NFT of collection c1 with price 5. -/
def nftOne : NFT := ⟨"c1", "1", "0xo", "0xcr", 5, "art", "NFT One"⟩

/-- Store with one collection holding one NFT of price 5 and no activity. -/
def dbOne : DB := ⟨[], [nftOne], [], [cOne], 7⟩

/-- Claim C1 counterexample: for the collection whose single NFT has price 5,
getCollections reports floorPrice 0, not the minimum price 5 — the
accumulator starts at 0 and only ever decreases, so min(p_i) is not computed
by getCollections/getTopCollections. -/
theorem C1_counterexample :
    (rowsOf (getCollectionsOp true dbOne 0)).map CollectionRow.floorPrice = [0] ∧
    (dbOne.nfts.filter (fun n => n.collection == cOne.contract)).map NFT.price = [5] ∧
    decide ((rowsOf (getCollectionsOp true dbOne 0)).map CollectionRow.floorPrice =
      (dbOne.nfts.filter (fun n => n.collection == cOne.contract)).map NFT.price) = false := by
  refine ⟨by decide, by decide, by decide⟩

/-- Claim C1 amended: in all three operations the computed volume is the sum
of the prices of the NFTs the query of that operation matches.  The floor
price is the minimum of the accumulator start value and those prices
(characterised as: a lower bound of the start value and every price, attained
at the start value or a price).  The start value is 0 in getCollections and
getTopCollections (so zero NFTs give floorPrice 0, and any list of
nonnegative prices gives 0 as well), while getOwnerCollection starts at
Number.MAX_VALUE (so zero NFTs give the Number.MAX_VALUE sentinel): the two
controllers use two different sentinels, not a single one. -/
theorem C1_volume_floorPrice :
    (∀ (db : DB) (now : ℚ),
      getCollectionsOp true db now =
        respond (.inr (db.collections.map (enrichCollection db now))) false 200) ∧
    (∀ (db : DB) (now : ℚ) (c : NFTCollection),
      (enrichCollection db now c).volume =
        ((db.nfts.filter (fun n => n.collection == c.contract)).map NFT.price).sum ∧
      (enrichCollection db now c).floorPrice ≤ 0 ∧
      (∀ n ∈ db.nfts.filter (fun n => n.collection == c.contract),
        (enrichCollection db now c).floorPrice ≤ n.price) ∧
      ((enrichCollection db now c).floorPrice = 0 ∨
        ∃ n ∈ db.nfts.filter (fun n => n.collection == c.contract),
          (enrichCollection db now c).floorPrice = n.price)) ∧
    (∀ (db : DB) (now : ℚ) (c : NFTCollection),
      db.nfts.filter (fun n => n.collection == c.contract) = [] →
        (enrichCollection db now c).volume = 0 ∧
        (enrichCollection db now c).floorPrice = 0) ∧
    (∀ (db : DB) (now : ℚ) (row : CollectionRow),
      row ∈ rowsOf (getTopCollectionsOp true db now) →
        ∃ c ∈ db.collections, row = enrichCollection db now c) ∧
    (∀ (db : DB) (ownerId : String) (now : ℚ),
      getOwnerCollectionOp true db ownerId now =
        respond (.inr ((db.collections.filter (findOwnerCollectionQ ownerId)).map
          (enrichOwnerCollection db now))) false 200) ∧
    (∀ (db : DB) (now : ℚ) (c : NFTCollection),
      (enrichOwnerCollection db now c).volume =
        ((db.nfts.filter (fun n => n.collection == c._id)).map NFT.price).sum ∧
      (enrichOwnerCollection db now c).floorPrice ≤ numberMaxValue ∧
      (∀ n ∈ db.nfts.filter (fun n => n.collection == c._id),
        (enrichOwnerCollection db now c).floorPrice ≤ n.price) ∧
      ((enrichOwnerCollection db now c).floorPrice = numberMaxValue ∨
        ∃ n ∈ db.nfts.filter (fun n => n.collection == c._id),
          (enrichOwnerCollection db now c).floorPrice = n.price)) ∧
    (∀ (db : DB) (now : ℚ) (c : NFTCollection),
      db.nfts.filter (fun n => n.collection == c._id) = [] →
        (enrichOwnerCollection db now c).volume = 0 ∧
        (enrichOwnerCollection db now c).floorPrice = numberMaxValue) := by
  refine ⟨fun db now => rfl, fun db now c => ?_, fun db now c h => ?_,
    fun db now row hrow => ?_, fun db ownerId now => rfl, fun db now c => ?_,
    fun db now c h => ?_⟩
  · obtain ⟨hle, hmem, hatt⟩ := enrichFold_floor 0
      (db.nfts.filter (fun n => n.collection == c.contract))
    exact ⟨by simp [enrichCollection, enrichFold_volume], hle, hmem, hatt⟩
  · constructor
    · simp [enrichCollection, h, enrichFold_volume]
    · simp [enrichCollection, h, enrichFold]
  · have hrow2 : row ∈ (db.collections.map (enrichCollection db now)).mergeSort topSortLe := by
      exact List.mem_of_mem_take hrow
    have hrow3 : row ∈ db.collections.map (enrichCollection db now) :=
      (List.mergeSort_perm (db.collections.map (enrichCollection db now)) topSortLe).mem_iff.mp
        hrow2
    obtain ⟨c, hc, hceq⟩ := List.mem_map.mp hrow3
    exact ⟨c, hc, hceq.symm⟩
  · obtain ⟨hle, hmem, hatt⟩ := enrichFold_floor numberMaxValue
      (db.nfts.filter (fun n => n.collection == c._id))
    exact ⟨by simp [enrichOwnerCollection, enrichFold_volume], hle, hmem, hatt⟩
  · constructor
    · simp [enrichOwnerCollection, h, enrichFold_volume]
    · simp [enrichOwnerCollection, h, enrichFold]

/-- Witness for the amended C1 theorem at the concrete one-NFT store. -/
theorem C1_volume_floorPrice_witness :
    (enrichCollection dbOne 0 cOne).floorPrice ≤ nftOne.price ∧
    ((enrichOwnerCollection dbOne 0 cOne).volume = 0 ∧
      (enrichOwnerCollection dbOne 0 cOne).floorPrice = numberMaxValue) ∧
    (∃ c ∈ dbOne.collections, enrichCollection dbOne 0 cOne = enrichCollection dbOne 0 c) := by
  obtain ⟨h1, h2, h3, h4, h5, h6, h7⟩ := C1_volume_floorPrice
  refine ⟨(h2 dbOne 0 cOne).2.2.1 nftOne (by decide), h7 dbOne 0 cOne (by decide),
    h4 dbOne 0 (enrichCollection dbOne 0 cOne) ?_⟩
  have hr : rowsOf (getTopCollectionsOp true dbOne 0) = [enrichCollection dbOne 0 cOne] := by
    simp [getTopCollectionsOp, tryCatch, rowsOf, dbOne, respond, List.mergeSort_singleton,
      pure, Except.pure]
  rw [hr]
  exact List.mem_singleton_self _

/- ------------------------------------------------------------------ -/
/- Claim C3.                                                          -/
/- ------------------------------------------------------------------ -/

/-- The empty document store. -/
def emptyDb : DB := ⟨[], [], [], [], 0⟩

/-- Claim C3 counterexample: with the handle unset, findPerson does not
return any payload at all — it throws the TypeError raised by dereferencing
the unset handle (no guard, no try/catch), contradicting both halves of the
claim for this operation. -/
theorem C3_counterexample :
    findPersonOp false emptyDb "0xA" = Except.error connTypeError ∧
    isThrown (findPersonOp false emptyDb "0xA") = true :=
  ⟨rfl, rfl⟩

/-- Claim C3 amended: with the handle unset, the thirteen operations that
begin with the if (this.mongodb) guard return the 500 could-not-connect error
payload before any I/O; the six remaining operations (findPerson, createOwner,
createCollection, getCollectionDetail, insertFavourite, removeFavourite)
dereference the unset handle outside any try/catch and throw a TypeError past
their boundary instead of returning a payload. -/
theorem C3_connection_behaviour :
    (∀ (db : DB) (now : ℚ),
      getCollectionsOp false db now =
        respond (.inl "Could not connect to the database.") true 500) ∧
    (∀ (db : DB) (now : ℚ),
      getTopCollectionsOp false db now =
        respond (.inl "Could not connect to the database.") true 500) ∧
    (∀ (db : DB) (contract : String),
      getOwnersOp false db contract =
        respond (.inl "Could not connect to the database.") true 500) ∧
    (∀ (db : DB) (contract : String),
      getItemsOp false db contract =
        respond (.inl "Could not connect to the database.") true 500) ∧
    (∀ (db : DB) (contract : String),
      getActivityOp false db contract =
        respond (.inl "Could not connect to the database.") true 500) ∧
    (∀ (db : DB) (contract : String),
      getHistoryOp false db contract =
        respond (.inl "Could not connect to the database.") true 500) ∧
    (∀ db : DB,
      findAllOwnersOp false db =
        respond (.inl "Could not connect to the database.") true 500) ∧
    (∀ (db : DB) (wallet : String) (upd : Person → Person),
      updateOwnerOp false db wallet upd =
        (respond (.inl "Could not connect to the database.") true 500, db)) ∧
    (∀ (db : DB) (wallet body : String),
      updateOwnerPhotoOp false db wallet body =
        (respond (.inl "Could not connect to the database.") true 500, db)) ∧
    (∀ (db : DB) (ownerId : String),
      getOwnerNtfsOp false db ownerId =
        respond (.inl "Could not connect to the database.") true 500) ∧
    (∀ (db : DB) (ownerId : String),
      getOwnerHistoryOp false db ownerId =
        respond (.inl "Could not connect to the database.") true 500) ∧
    (∀ (db : DB) (ownerId : String) (now : ℚ),
      getOwnerCollectionOp false db ownerId now =
        respond (.inl "Could not connect to the database.") true 500) ∧
    (∀ (db : DB) (ownerId : String),
      getOwnerOffersOp false db ownerId =
        respond (.inl "Could not connect to the database.") true 500) ∧
    (∀ (db : DB) (personId : String),
      findPersonOp false db personId = Except.error connTypeError) ∧
    (∀ (db : DB) (photoUrl wallet bio username social : String),
      createOwnerOp false db photoUrl wallet bio username social =
        Except.error connTypeError) ∧
    (∀ (db : DB) (logoFile featuredImgFile bannerImgFile name description category
        siteUrl discordUrl instagramUrl mediumUrl telegramUrl : String)
        (creatorEarning : ℚ) (blockchain : String) (isExplicit : Bool)
        (creatorId : String),
      createCollectionOp false db logoFile featuredImgFile bannerImgFile name
        description category siteUrl discordUrl instagramUrl mediumUrl telegramUrl
        creatorEarning blockchain isExplicit creatorId = Except.error connTypeError) ∧
    (∀ (db : DB) (contract : String) (now : ℚ),
      getCollectionDetailOp false db contract now = Except.error connTypeError) ∧
    (∀ (db : DB) (ownerId collectionId nftId : String),
      insertFavouriteOp false db ownerId collectionId nftId =
        Except.error connTypeError) ∧
    (∀ (db : DB) (ownerId collectionId nftId : String),
      removeFavouriteOp false db ownerId collectionId nftId =
        Except.error connTypeError) :=
  ⟨fun _ _ => rfl, fun _ _ => rfl, fun _ _ => rfl, fun _ _ => rfl, fun _ _ => rfl,
   fun _ _ => rfl, fun _ => rfl, fun _ _ _ => rfl, fun _ _ _ => rfl, fun _ _ => rfl,
   fun _ _ => rfl, fun _ _ _ => rfl, fun _ _ => rfl, fun _ _ => rfl,
   fun _ _ _ _ _ _ => rfl, fun _ _ _ _ _ _ _ _ _ _ _ _ _ _ _ _ => rfl,
   fun _ _ _ => rfl, fun _ _ _ _ => rfl, fun _ _ _ _ => rfl⟩

/- ------------------------------------------------------------------ -/
/- Claim C4.                                                          -/
/- ------------------------------------------------------------------ -/

/-- The blank Person record findPerson inserts on a miss for the wallet w,
given the id counter value. -/
def blankPerson (w : String) (n : Nat) : Person := ⟨idOf n, w, "", "", "", ""⟩

/-- The store after findPerson inserts the blank record for w. -/
def dbAfterBlankInsert (db : DB) (w : String) : DB :=
  { db with persons := db.persons ++ [blankPerson w db.nextId], nextId := db.nextId + 1 }

/-- Claim C4: for a wallet with no Person record, findPerson inserts exactly
one blank Person (all profile fields empty) and answers it with zero counts;
after that insert the store holds exactly one Person for the wallet, and a
second call returns the same record (now with the live counts) without
inserting again; when the Person already exists, findPerson returns it with
the live NFT and collection counts and does not change the store. -/
theorem C4_findPerson :
    (∀ (db : DB) (w : String),
      db.persons.find? (findUserQuery w) = none →
        findPersonOp true db w =
          Except.ok (respond (.inr ⟨idOf db.nextId, "", w, "", "", "", 0, 0⟩) false 200,
            dbAfterBlankInsert db w) ∧
        ((dbAfterBlankInsert db w).persons.filter (fun p => p.wallet == w)).length = 1 ∧
        findPersonOp true (dbAfterBlankInsert db w) w =
          Except.ok (respond
            (.inr ⟨idOf db.nextId, "", w, "", "", "",
              (db.nfts.filter (fun n => n.owner == w)).length,
              (db.collections.filter (fun c => c.creator == w)).length⟩) false 200,
            dbAfterBlankInsert db w)) ∧
    (∀ (db : DB) (w : String) (p : Person),
      db.persons.find? (findUserQuery w) = some p →
        findPersonOp true db w =
          Except.ok (respond
            (.inr ⟨p._id, p.photoUrl, p.wallet, p.username, p.bio, p.social,
              (db.nfts.filter (fun n => n.owner == w)).length,
              (db.collections.filter (fun c => c.creator == w)).length⟩) false 200, db)) := by
  have hfind : ∀ (db : DB) (w : String),
      db.persons.find? (findUserQuery w) = none →
      (dbAfterBlankInsert db w).persons.find? (findUserQuery w) =
        some (blankPerson w db.nextId) := by
    intro db w h
    simp only [dbAfterBlankInsert, List.find?_append, h, Option.none_or]
    simp [findUserQuery, blankPerson]
  refine ⟨fun db w h => ⟨?_, ?_, ?_⟩, fun db w p h => ?_⟩
  · have h2 := hfind db w h
    simp only [dbAfterBlankInsert, blankPerson] at h2
    simp only [findPersonOp, if_true, h, h2, dbAfterBlankInsert, blankPerson]
    rfl
  · have hnil : db.persons.filter (fun p => p.wallet == w) = [] := by
      rw [List.filter_eq_nil_iff]
      intro a ha
      exact List.find?_eq_none.mp h a ha
    simp [dbAfterBlankInsert, List.filter_append, hnil, blankPerson]
  · simp only [findPersonOp, if_true, hfind db w h]
    rfl
  · simp only [findPersonOp, if_true, h]
    rfl

/-- Witness for C4 at the empty store and wallet 0xA. -/
theorem C4_findPerson_witness :
    findPersonOp true emptyDb "0xA" =
      Except.ok (respond (.inr ⟨idOf 0, "", "0xA", "", "", "", 0, 0⟩) false 200,
        dbAfterBlankInsert emptyDb "0xA") ∧
    ((dbAfterBlankInsert emptyDb "0xA").persons.filter (fun p => p.wallet == "0xA")).length = 1 ∧
    findPersonOp true (dbAfterBlankInsert emptyDb "0xA") "0xA" =
      Except.ok (respond (.inr ⟨idOf 0, "", "0xA", "", "", "", 0, 0⟩) false 200,
        dbAfterBlankInsert emptyDb "0xA") := by
  have h := (C4_findPerson.1 emptyDb "0xA") (by decide)
  exact ⟨h.1, h.2.1, h.2.2⟩

/- ------------------------------------------------------------------ -/
/- Claim C7.                                                          -/
/- ------------------------------------------------------------------ -/

/-- The store after createOwner inserts the new Person. -/
def dbAfterCreateOwner (db : DB) (photoUrl wallet bio username social : String) : DB :=
  { db with
    persons := db.persons ++ [⟨idOf db.nextId, wallet, photoUrl, social, bio, username⟩],
    nextId := db.nextId + 1 }

/-- Claim C7: when a Person already exists for the wallet, createOwner
answers the 501 conflict error payload and leaves the store unchanged (no
second record); otherwise it inserts the Person and answers the 201 creation
confirmation carrying the generated id. -/
theorem C7_createOwner :
    (∀ (db : DB) (photoUrl wallet bio username social : String) (p : Person),
      db.persons.find? (findUserQuery wallet) = some p →
        createOwnerOp true db photoUrl wallet bio username social =
          Except.ok (respond (.inl "Current user has been created") true 501, db)) ∧
    (∀ (db : DB) (photoUrl wallet bio username social : String),
      db.persons.find? (findUserQuery wallet) = none →
        createOwnerOp true db photoUrl wallet bio username social =
          Except.ok (respond
            (.inl ("Successfully created a new owner with id " ++ idOf db.nextId))
            false 201, dbAfterCreateOwner db photoUrl wallet bio username social)) := by
  refine ⟨fun db photoUrl wallet bio username social p h => ?_,
    fun db photoUrl wallet bio username social h => ?_⟩
  · simp only [createOwnerOp, if_true, h]
    rfl
  · simp only [createOwnerOp, if_true, h, dbAfterCreateOwner]
    rfl

/-- Witness for C7: creation succeeds on the empty store and the repeated
call with the same wallet answers the conflict payload without inserting. -/
theorem C7_createOwner_witness :
    createOwnerOp true emptyDb "p" "0xW" "b" "u" "s" =
      Except.ok (respond
        (.inl ("Successfully created a new owner with id " ++ idOf 0)) false 201,
        dbAfterCreateOwner emptyDb "p" "0xW" "b" "u" "s") ∧
    createOwnerOp true (dbAfterCreateOwner emptyDb "p" "0xW" "b" "u" "s")
        "p2" "0xW" "b2" "u2" "s2" =
      Except.ok (respond (.inl "Current user has been created") true 501,
        dbAfterCreateOwner emptyDb "p" "0xW" "b" "u" "s") := by
  refine ⟨C7_createOwner.2 emptyDb "p" "0xW" "b" "u" "s" (by decide),
    C7_createOwner.1 (dbAfterCreateOwner emptyDb "p" "0xW" "b" "u" "s")
      "p2" "0xW" "b2" "u2" "s2" ⟨idOf 0, "0xW", "p", "s", "b", "u"⟩ (by decide)⟩

/- ------------------------------------------------------------------ -/
/- Claims C5 and C10.                                                 -/
/- ------------------------------------------------------------------ -/

/-- The record createCollection builds and inserts (id from the counter,
contract from the static per-blockchain table, creator wallet from the
resolved creator). -/
def newCollRecord (db : DB)
    (logoFile featuredImgFile bannerImgFile name description category : String)
    (siteUrl discordUrl instagramUrl mediumUrl telegramUrl : String)
    (creatorEarning : ℚ) (blockchain : String) (isExplicit : Bool)
    (creatorWallet : String) : NFTCollection :=
  { _id := idOf db.nextId
    name := name
    contract := contractFor blockchain
    creator := creatorWallet
    creatorEarning := creatorEarning
    blockchain := blockchain
    isVerified := false
    isExplicit := isExplicit
    logoUrl := uploadImage logoFile
    featuredUrl := if featuredImgFile == "" then "" else uploadImage featuredImgFile
    bannerUrl := if bannerImgFile == "" then "" else uploadImage bannerImgFile
    description := description
    category := category
    links := [siteUrl, discordUrl, instagramUrl, mediumUrl, telegramUrl]
    url := ""
    platform := "Unknown"
    properties := [] }

/-- The store after createCollection inserts the record. -/
def dbAfterCreateColl (db : DB) (rec : NFTCollection) : DB :=
  { db with collections := db.collections ++ [rec], nextId := db.nextId + 1 }

/-- Claim C5: with an existing creator and nonempty logo/name/blockchain/
category, a name already present in the store makes createCollection answer
the duplicate-name 500 error payload with the store unchanged; and whenever
logo, name, blockchain or category is empty (missing), createCollection
answers an error payload with the store unchanged — no record is written in
either case. -/
theorem C5_createCollection :
    (∀ (db : DB) (logoFile featuredImgFile bannerImgFile name description category
        siteUrl discordUrl instagramUrl mediumUrl telegramUrl : String)
        (creatorEarning : ℚ) (blockchain : String) (isExplicit : Bool)
        (creatorId : String) (creator : Person) (c : NFTCollection),
      db.persons.find? (findPersonByIdQ creatorId) = some creator →
      logoFile ≠ "" → name ≠ "" → blockchain ≠ "" → category ≠ "" →
      db.collections.find? (findCollectionItemByNameQ name) = some c →
        createCollectionOp true db logoFile featuredImgFile bannerImgFile name
          description category siteUrl discordUrl instagramUrl mediumUrl telegramUrl
          creatorEarning blockchain isExplicit creatorId =
          Except.ok (respond (.inl "Same collection name detected") true 500, db)) ∧
    (∀ (db : DB) (logoFile featuredImgFile bannerImgFile name description category
        siteUrl discordUrl instagramUrl mediumUrl telegramUrl : String)
        (creatorEarning : ℚ) (blockchain : String) (isExplicit : Bool)
        (creatorId : String),
      logoFile = "" ∨ name = "" ∨ blockchain = "" ∨ category = "" →
        ∃ msg : String,
          createCollectionOp true db logoFile featuredImgFile bannerImgFile name
            description category siteUrl discordUrl instagramUrl mediumUrl telegramUrl
            creatorEarning blockchain isExplicit creatorId =
            Except.ok (respond (.inl msg) true 500, db)) := by
  constructor
  · intro db logoFile featuredImgFile bannerImgFile name description category
      siteUrl discordUrl instagramUrl mediumUrl telegramUrl
      creatorEarning blockchain isExplicit creatorId creator c h1 h2 h3 h4 h5 h6
    simp [createCollectionOp, h1, h2, h3, h4, h5, h6, tryCatchSt, JSError.message, respond,
      pure, Except.pure]
  · intro db logoFile featuredImgFile bannerImgFile name description category
      siteUrl discordUrl instagramUrl mediumUrl telegramUrl
      creatorEarning blockchain isExplicit creatorId hdisj
    cases hc : db.persons.find? (findPersonByIdQ creatorId) with
    | none =>
        exact ⟨"creator address is invalid or missing",
          by simp [createCollectionOp, hc, tryCatchSt, JSError.message, respond, pure, Except.pure]⟩
    | some creator =>
        by_cases hl : logoFile = ""
        · exact ⟨"logoUrl is invalid or missing",
            by simp [createCollectionOp, hc, hl, tryCatchSt, JSError.message, respond, pure, Except.pure]⟩
        · by_cases hn : name = ""
          · exact ⟨"name is invalid or missing",
              by simp [createCollectionOp, hc, hl, hn, tryCatchSt, JSError.message, respond, pure, Except.pure]⟩
          · by_cases hb : blockchain = ""
            · exact ⟨"blockchain is invalid or missing",
                by simp [createCollectionOp, hc, hl, hn, hb, tryCatchSt, JSError.message,
                  respond, pure, Except.pure]⟩
            · have hcat : category = "" := by tauto
              exact ⟨"category is invalid or missing",
                by simp [createCollectionOp, hc, hl, hn, hb, hcat, tryCatchSt,
                  JSError.message, respond, pure, Except.pure]⟩

/-- An existing creator Person with database id cr1 and wallet 0xcr. -/
def personCr : Person := ⟨"cr1", "0xcr", "", "", "", ""⟩

/-- Store holding the creator and the collection named Coll One. -/
def dbC5 : DB := ⟨[personCr], [], [], [cOne], 9⟩

/-- Witness for C5: the duplicate name Coll One is rejected with the
duplicate-name payload and the store unchanged; an empty logo is rejected
with an error payload and the store unchanged. -/
theorem C5_createCollection_witness :
    createCollectionOp true dbC5 "logo" "" "" "Coll One" "d" "cat"
        "" "" "" "" "" 0 "ERC721" false "cr1" =
      Except.ok (respond (.inl "Same collection name detected") true 500, dbC5) ∧
    ∃ msg : String,
      createCollectionOp true dbC5 "" "" "" "Fresh" "d" "cat"
          "" "" "" "" "" 0 "ERC721" false "cr1" =
        Except.ok (respond (.inl msg) true 500, dbC5) := by
  refine ⟨C5_createCollection.1 dbC5 "logo" "" "" "Coll One" "d" "cat"
      "" "" "" "" "" 0 "ERC721" false "cr1" personCr cOne
      (by decide) (by decide) (by decide) (by decide) (by decide) (by decide),
    C5_createCollection.2 dbC5 "" "" "" "Fresh" "d" "cat"
      "" "" "" "" "" 0 "ERC721" false "cr1" (Or.inl rfl)⟩

/-- Claim C10: with valid inputs (existing creator, nonempty logo, name,
blockchain and category, fresh name) and a blockchain other than ERC721 and
ERC1155, createCollection inserts and returns a record whose contract field
is the empty string, and the contract-keyed lookup predicate with the empty
string matches that record. -/
theorem C10_createCollection_contract :
    ∀ (db : DB) (logoFile featuredImgFile bannerImgFile name description category
        siteUrl discordUrl instagramUrl mediumUrl telegramUrl : String)
        (creatorEarning : ℚ) (blockchain : String) (isExplicit : Bool)
        (creatorId : String) (creator : Person),
      db.persons.find? (findPersonByIdQ creatorId) = some creator →
      logoFile ≠ "" → name ≠ "" → blockchain ≠ "" → category ≠ "" →
      db.collections.find? (findCollectionItemByNameQ name) = none →
      blockchain ≠ "ERC721" → blockchain ≠ "ERC1155" →
        createCollectionOp true db logoFile featuredImgFile bannerImgFile name
          description category siteUrl discordUrl instagramUrl mediumUrl telegramUrl
          creatorEarning blockchain isExplicit creatorId =
          Except.ok (respond
            (.inr ⟨newCollRecord db logoFile featuredImgFile bannerImgFile name
              description category siteUrl discordUrl instagramUrl mediumUrl
              telegramUrl creatorEarning blockchain isExplicit creator.wallet,
              creator⟩) false 200,
            dbAfterCreateColl db (newCollRecord db logoFile featuredImgFile
              bannerImgFile name description category siteUrl discordUrl
              instagramUrl mediumUrl telegramUrl creatorEarning blockchain
              isExplicit creator.wallet)) ∧
        (newCollRecord db logoFile featuredImgFile bannerImgFile name description
          category siteUrl discordUrl instagramUrl mediumUrl telegramUrl
          creatorEarning blockchain isExplicit creator.wallet).contract = "" ∧
        findCollectionItemQ "" (newCollRecord db logoFile featuredImgFile
          bannerImgFile name description category siteUrl discordUrl instagramUrl
          mediumUrl telegramUrl creatorEarning blockchain isExplicit
          creator.wallet) = true := by
  intro db logoFile featuredImgFile bannerImgFile name description category
    siteUrl discordUrl instagramUrl mediumUrl telegramUrl
    creatorEarning blockchain isExplicit creatorId creator h1 h2 h3 h4 h5 h6 h7 h8
  have hcontract : contractFor blockchain = "" := by
    simp [contractFor, h7, h8]
  refine ⟨?_, by simp [newCollRecord, hcontract], ?_⟩
  · simp [createCollectionOp, h1, h2, h3, h4, h5, h6, tryCatchSt, respond,
      newCollRecord, dbAfterCreateColl, pure, Except.pure]
  · simp [findCollectionItemQ, newCollRecord, hcontract]

/-- Witness for C10 at a concrete store with blockchain Solana. -/
theorem C10_createCollection_contract_witness :
    createCollectionOp true dbC5 "logo" "" "" "Fresh" "d" "cat"
        "" "" "" "" "" 0 "Solana" false "cr1" =
      Except.ok (respond
        (.inr ⟨newCollRecord dbC5 "logo" "" "" "Fresh" "d" "cat"
          "" "" "" "" "" 0 "Solana" false "0xcr", personCr⟩) false 200,
        dbAfterCreateColl dbC5 (newCollRecord dbC5 "logo" "" "" "Fresh" "d" "cat"
          "" "" "" "" "" 0 "Solana" false "0xcr")) ∧
    (newCollRecord dbC5 "logo" "" "" "Fresh" "d" "cat"
      "" "" "" "" "" 0 "Solana" false "0xcr").contract = "" := by
  have h := C10_createCollection_contract dbC5 "logo" "" "" "Fresh" "d" "cat"
    "" "" "" "" "" 0 "Solana" false "cr1" personCr
    (by decide) (by decide) (by decide) (by decide) (by decide) (by decide)
    (by decide) (by decide)
  exact ⟨h.1, h.2.1⟩

/- ------------------------------------------------------------------ -/
/- Claim C6.                                                          -/
/- ------------------------------------------------------------------ -/

/-- The relation between a matched Activity row and its enriched result. -/
def histRel (db : DB) (a : Activity) (r : HistRow) : Prop :=
  r.activity = a ∧
  r.collection = db.collections.find? (fun c => c._id == a.collection) ∧
  ∃ n, db.nfts.find? (fun nn => nn.collection == a.collection && nn.index == a.nftId) =
      some n ∧ r.nft = (n.artURI, n.name)

/-- The fan-out over the matched rows either enriches every row or rejects
with the null-dereference TypeError of the first dangling NFT reference. -/
lemma mapM_histEnrich (db : DB) (acts : List Activity) :
    (∃ l, acts.mapM (histEnrich db) = Except.ok l ∧ List.Forall₂ (histRel db) acts l) ∨
    acts.mapM (histEnrich db) = Except.error nullDerefError := by
  induction acts with
  | nil => exact Or.inl ⟨[], rfl, List.Forall₂.nil⟩
  | cons a rest ih =>
      cases hfind : db.nfts.find?
          (fun nn => nn.collection == a.collection && nn.index == a.nftId) with
      | none =>
          right
          have ha : histEnrich db a = Except.error nullDerefError := by
            simp [histEnrich, hfind, throw, throwThe, MonadExceptOf.throw]
          simp only [List.mapM_cons, ha]
          rfl
      | some n =>
          have ha : histEnrich db a =
              Except.ok ⟨a, (n.artURI, n.name),
                db.collections.find? (fun c => c._id == a.collection)⟩ := by
            simp [histEnrich, hfind, pure, Except.pure]
          rcases ih with ⟨l, hmap, hrel⟩ | herr
          · left
            refine ⟨⟨a, (n.artURI, n.name),
              db.collections.find? (fun c => c._id == a.collection)⟩ :: l, ?_, ?_⟩
            · simp only [List.mapM_cons, ha, hmap]
              rfl
            · exact List.Forall₂.cons ⟨rfl, rfl, n, hfind, rfl⟩ hrel
          · right
            simp only [List.mapM_cons, ha, herr]
            rfl

/-- Claim C6 counterexample: with no Activity rows for the owner, the
aggregation yields the empty array, which is truthy, so getOwnerHistory
answers a 200 success with the empty list — not the claimed 422 error. -/
theorem C6_counterexample :
    getOwnerHistoryOp true emptyDb "0xA" = respond (.inr []) false 200 ∧
    (getOwnerHistoryOp true emptyDb "0xA").isError = false ∧
    (getOwnerHistoryOp true emptyDb "0xA").status = 200 :=
  ⟨rfl, rfl, rfl⟩

/-- Claim C6 amended: getOwnerHistory aggregates the Activity rows with
from == ownerId or to == ownerId; when no row matches it answers a 200
success with the empty list (the 422 branch is unreachable because the
aggregation always yields an array); otherwise it either enriches every row
with the referenced NFT art/name and the referenced collection lookup, or, on
the first dangling NFT reference, the whole fan-out rejects and the catch
yields the 500 payload. -/
theorem C6_getOwnerHistory :
    (∀ (db : DB) (ownerId : String),
      db.activities.filter (findOwnerHistoryQ ownerId) = [] →
        getOwnerHistoryOp true db ownerId = respond (.inr []) false 200) ∧
    (∀ (db : DB) (ownerId : String),
      (∃ l, getOwnerHistoryOp true db ownerId = respond (.inr l) false 200 ∧
        List.Forall₂ (histRel db) (db.activities.filter (findOwnerHistoryQ ownerId)) l) ∨
      getOwnerHistoryOp true db ownerId =
        respond (.inl (JSError.message nullDerefError)) true 500) := by
  have hbody : ∀ (db : DB) (ownerId : String),
      (∃ l, (db.activities.filter (findOwnerHistoryQ ownerId)).mapM (histEnrich db) =
          Except.ok l ∧
        getOwnerHistoryOp true db ownerId = respond (.inr l) false 200 ∧
        List.Forall₂ (histRel db) (db.activities.filter (findOwnerHistoryQ ownerId)) l) ∨
      getOwnerHistoryOp true db ownerId =
        respond (.inl (JSError.message nullDerefError)) true 500 := by
    intro db ownerId
    rcases mapM_histEnrich db (db.activities.filter (findOwnerHistoryQ ownerId)) with
      ⟨l, hmap, hrel⟩ | herr
    · left
      refine ⟨l, hmap, ?_, hrel⟩
      simp only [getOwnerHistoryOp, if_true, hmap]
      rfl
    · right
      simp only [getOwnerHistoryOp, if_true, herr]
      rfl
  constructor
  · intro db ownerId h
    have h0 : (db.activities.filter (findOwnerHistoryQ ownerId)).mapM (histEnrich db) =
        Except.ok [] := by
      rw [h]
      rfl
    simp only [getOwnerHistoryOp, if_true, h0]
    rfl
  · intro db ownerId
    rcases hbody db ownerId with ⟨l, _, hop, hrel⟩ | herr
    · exact Or.inl ⟨l, hop, hrel⟩
    · exact Or.inr herr

/-- Witness for C6 at a store whose activity table is empty. -/
theorem C6_getOwnerHistory_witness :
    getOwnerHistoryOp true dbOne "0xZ" = respond (.inr []) false 200 :=
  C6_getOwnerHistory.1 dbOne "0xZ" (by decide)

/- ------------------------------------------------------------------ -/
/- Claim C8.                                                          -/
/- ------------------------------------------------------------------ -/

/-- Claim C8: getTopCollections returns the same enriched list as
getCollections, sorted in memory by descending volume and truncated to the
first 10 — its payload is exactly the sort-and-truncate of the getCollections
payload, its length is min(10, number of collections) (hence exactly 10 for
any input of 10 or more rows and at most 10 always), and adjacent payload
rows are in descending volume order. -/
theorem C8_getTopCollections :
    ∀ (db : DB) (now : ℚ),
      getTopCollectionsOp true db now =
        respond (.inr (((db.collections.map (enrichCollection db now)).mergeSort
          topSortLe).take 10)) false 200 ∧
      (rowsOf (getTopCollectionsOp true db now)).length = min 10 db.collections.length ∧
      List.Pairwise (fun a b => b.volume ≤ a.volume)
        (rowsOf (getTopCollectionsOp true db now)) ∧
      rowsOf (getTopCollectionsOp true db now) =
        ((rowsOf (getCollectionsOp true db now)).mergeSort topSortLe).take 10 := by
  intro db now
  have hrows : rowsOf (getTopCollectionsOp true db now) =
      ((db.collections.map (enrichCollection db now)).mergeSort topSortLe).take 10 := rfl
  refine ⟨rfl, ?_, ?_, rfl⟩
  · rw [hrows, List.length_take, List.length_mergeSort, List.length_map]
  · rw [hrows]
    have htrans : ∀ a b c : CollectionRow,
        topSortLe a b = true → topSortLe b c = true → topSortLe a c = true := by
      intro a b c hab hbc
      simp only [topSortLe, decide_eq_true_eq] at *
      exact le_trans hbc hab
    have htotal : ∀ a b : CollectionRow, (topSortLe a b || topSortLe b a) = true := by
      intro a b
      simp only [topSortLe, Bool.or_eq_true, decide_eq_true_eq]
      exact le_total b.volume a.volume
    have hs := List.sorted_mergeSort htrans htotal
      (db.collections.map (enrichCollection db now))
    have hsub := List.take_sublist 10
      ((db.collections.map (enrichCollection db now)).mergeSort topSortLe)
    refine (List.Pairwise.sublist hsub hs).imp ?_
    intro a b hab
    simpa [topSortLe, decide_eq_true_eq] using hab

/- ------------------------------------------------------------------ -/
/- Claim C9.                                                          -/
/- ------------------------------------------------------------------ -/

/-- Claim C9: insertFavourite and removeFavourite validate that the
collection, the NFT and the owner exist, answering the 501/501/422 error
payloads when one is missing; when all three exist they answer the constant
success messages; and on every path both operations return the store
unchanged — no record is mutated. -/
theorem C9_favourites :
    (∀ (db : DB) (ownerId collectionId nftId : String),
      (∃ r, insertFavouriteOp true db ownerId collectionId nftId = Except.ok (r, db)) ∧
      (∃ r, removeFavouriteOp true db ownerId collectionId nftId = Except.ok (r, db))) ∧
    (∀ (db : DB) (ownerId collectionId nftId : String),
      db.collections.find? (findCollectionItemByIdQ collectionId) = none →
        insertFavouriteOp true db ownerId collectionId nftId =
          Except.ok (respond (.inl "collection not found") true 501, db) ∧
        removeFavouriteOp true db ownerId collectionId nftId =
          Except.ok (respond (.inl "collection not found") true 501, db)) ∧
    (∀ (db : DB) (ownerId collectionId nftId : String) (c : NFTCollection),
      db.collections.find? (findCollectionItemByIdQ collectionId) = some c →
      db.nfts.find? (findNFTItemQ collectionId nftId) = none →
        insertFavouriteOp true db ownerId collectionId nftId =
          Except.ok (respond (.inl "Nft not found") true 501, db) ∧
        removeFavouriteOp true db ownerId collectionId nftId =
          Except.ok (respond (.inl "Nft not found") true 501, db)) ∧
    (∀ (db : DB) (ownerId collectionId nftId : String) (c : NFTCollection) (n : NFT),
      db.collections.find? (findCollectionItemByIdQ collectionId) = some c →
      db.nfts.find? (findNFTItemQ collectionId nftId) = some n →
      db.persons.find? (findUserQuery ownerId) = none →
        insertFavouriteOp true db ownerId collectionId nftId =
          Except.ok (respond (.inl "to onwer not found.") true 422, db) ∧
        removeFavouriteOp true db ownerId collectionId nftId =
          Except.ok (respond (.inl "to onwer not found.") true 422, db)) ∧
    (∀ (db : DB) (ownerId collectionId nftId : String) (c : NFTCollection) (n : NFT)
        (p : Person),
      db.collections.find? (findCollectionItemByIdQ collectionId) = some c →
      db.nfts.find? (findNFTItemQ collectionId nftId) = some n →
      db.persons.find? (findUserQuery ownerId) = some p →
        insertFavouriteOp true db ownerId collectionId nftId =
          Except.ok (respond (.inl "This NFT already favourite") false 200, db) ∧
        removeFavouriteOp true db ownerId collectionId nftId =
          Except.ok (respond (.inl "Favourite removed") false 200, db)) := by
  refine ⟨fun db o cid nid => ?_,
    fun db o cid nid h1 => ?_,
    fun db o cid nid c h1 h2 => ?_,
    fun db o cid nid c n h1 h2 h3 => ?_,
    fun db o cid nid c n p h1 h2 h3 => ?_⟩
  · constructor
    · cases h1 : db.collections.find? (findCollectionItemByIdQ cid) with
      | none =>
          exact ⟨respond (.inl "collection not found") true 501,
            by simp only [insertFavouriteOp, if_true, h1]; rfl⟩
      | some c =>
          cases h2 : db.nfts.find? (findNFTItemQ cid nid) with
          | none =>
              exact ⟨respond (.inl "Nft not found") true 501,
                by simp only [insertFavouriteOp, if_true, h1, h2]; rfl⟩
          | some n =>
              cases h3 : db.persons.find? (findUserQuery o) with
              | none =>
                  exact ⟨respond (.inl "to onwer not found.") true 422,
                    by simp only [insertFavouriteOp, if_true, h1, h2, h3]; rfl⟩
              | some p =>
                  exact ⟨respond (.inl "This NFT already favourite") false 200,
                    by simp only [insertFavouriteOp, if_true, h1, h2, h3]; rfl⟩
    · cases h1 : db.collections.find? (findCollectionItemByIdQ cid) with
      | none =>
          exact ⟨respond (.inl "collection not found") true 501,
            by simp only [removeFavouriteOp, if_true, h1]; rfl⟩
      | some c =>
          cases h2 : db.nfts.find? (findNFTItemQ cid nid) with
          | none =>
              exact ⟨respond (.inl "Nft not found") true 501,
                by simp only [removeFavouriteOp, if_true, h1, h2]; rfl⟩
          | some n =>
              cases h3 : db.persons.find? (findUserQuery o) with
              | none =>
                  exact ⟨respond (.inl "to onwer not found.") true 422,
                    by simp only [removeFavouriteOp, if_true, h1, h2, h3]; rfl⟩
              | some p =>
                  exact ⟨respond (.inl "Favourite removed") false 200,
                    by simp only [removeFavouriteOp, if_true, h1, h2, h3]; rfl⟩
  · exact ⟨by simp only [insertFavouriteOp, if_true, h1]; rfl,
      by simp only [removeFavouriteOp, if_true, h1]; rfl⟩
  · exact ⟨by simp only [insertFavouriteOp, if_true, h1, h2]; rfl,
      by simp only [removeFavouriteOp, if_true, h1, h2]; rfl⟩
  · exact ⟨by simp only [insertFavouriteOp, if_true, h1, h2, h3]; rfl,
      by simp only [removeFavouriteOp, if_true, h1, h2, h3]; rfl⟩
  · exact ⟨by simp only [insertFavouriteOp, if_true, h1, h2, h3]; rfl,
      by simp only [removeFavouriteOp, if_true, h1, h2, h3]; rfl⟩

/-- NFT stored with its collection reference set to the collection id cid1,
as the favourite lookups expect. -/
def nftFav : NFT := ⟨"cid1", "42", "0xo", "0xcr", 1, "art", "Fav"⟩

/-- Store where collection cid1, NFT 42 and owner 0xcr all exist. -/
def dbFav : DB := ⟨[personCr], [nftFav], [], [cOne], 3⟩

/-- Witness for C9 at the store where all three records exist: both
operations answer their constant success message and the store is returned
unchanged. -/
theorem C9_favourites_witness :
    insertFavouriteOp true dbFav "0xcr" "cid1" "42" =
      Except.ok (respond (.inl "This NFT already favourite") false 200, dbFav) ∧
    removeFavouriteOp true dbFav "0xcr" "cid1" "42" =
      Except.ok (respond (.inl "Favourite removed") false 200, dbFav) :=
  C9_favourites.2.2.2.2 dbFav "0xcr" "cid1" "42" cOne nftFav personCr
    (by decide) (by decide) (by decide)

end ArcNFT
